import Mathlib

set_option maxRecDepth 1000000

/-!
A shallow embedding of the NES emulator core (the nes crate) in Lean 4,
with theorems checking the natural-language specification against the code.
Each definition is translated from the named Rust source location.
Machine integers are modelled as Nat with explicit masking (percent 2 pow w,
bitwise and) exactly where the Rust types wrap or truncate.
-/

namespace NesEmu

/-- The word macro from src/nes/src/byte.rs: combine a low and a high byte
into a 16-bit little-endian word, ((hi as u16) shl 8) or (lo as u16). -/
def word (lo hi : Nat) : Nat := (hi <<< 8) ||| lo

/-- A u8-typed load from an abstract memory: the Rust bus returns u8, so the
value read is always below 256. -/
def loadb8 (mem : Nat → Nat) (a : Nat) : Nat := mem a % 256

/-- Mem::loadw from src/nes/src/mem.rs: little-endian word, low byte at addr,
high byte at addr + 1. -/
def loadw8 (mem : Nat → Nat) (a : Nat) : Nat := word (loadb8 mem a) (loadb8 mem (a + 1))

namespace Cpu

/-- Embeds Cpu::rel, src/nes/src/cpu.rs lines 485-489.  On entry pc points at
the operand byte (the opcode byte was already consumed by step).  The source
does: let delta: i32 = self.loadb_bump_pc().into() - a u8-to-i32 conversion,
which zero-extends - then bumps pc by one (u16) and returns
Address::Absolute((delta + pc) as u16). -/
def rel (pc d : Nat) : Nat := (d % 256 + (pc + 1) % 65536) % 65536

/-- Modelled from the claim text for C1 (refinement comparison only): the
branch target is the address of the operand byte plus one (instruction plus
two) plus the operand interpreted as a signed 8-bit offset, reduced to u16. -/
def relSpec (pc d : Nat) : Nat :=
  ((pc + 1) % 65536 + d % 256 + 65536 - (if d % 256 < 128 then 0 else 256)) % 65536

/-- Embeds the Address::Indirect arm of Cpu::jmp, src/nes/src/cpu.rs lines
833-853: when the vector ends in 0xFF the high byte of the new program
counter is fetched from the start of the same page (the 6502 page-wrap bug),
otherwise the little-endian word at the vector is loaded. -/
def jmpIndirect (mem : Nat → Nat) (vector : Nat) : Nat :=
  if vector &&& 0x00FF = 0x00FF then
    word (loadb8 mem ((vector &&& 0xFF00) + 0x00FF)) (loadb8 mem (vector &&& 0xFF00))
  else
    loadw8 mem vector

end Cpu

/-- The iNES header fields parsed by Rom::from_path, src/nes/src/rom.rs. -/
structure INesHeader where
  prg_rom_size : Nat
  chr_rom_size : Nat
  flags_6 : Nat
  flags_7 : Nat
  prg_ram_size : Nat
  flags_9 : Nat
deriving DecidableEq, Repr

/-- Embeds INesHeader::mapper, src/nes/src/rom.rs lines 89-92: the source
computes (self.flags_7 * 0xf0) | (self.flags_6 >> 4) - a u8 multiplication
(which wraps modulo 256 in release builds; debug builds panic on overflow),
not a mask. -/
def INesHeader.mapper (h : INesHeader) : Nat :=
  (h.flags_7 * 0xF0) % 256 ||| h.flags_6 >>> 4

/-- Modelled from the claim text for C8 (refinement comparison only): the
mapper id whose high nibble is bits 4-7 of header byte 7 and whose low nibble
is bits 4-7 of header byte 6, i.e. (flags_7 and 0xF0) or (flags_6 shr 4). -/
def INesHeader.mapperSpec (h : INesHeader) : Nat :=
  (h.flags_7 &&& 0xF0) ||| h.flags_6 >>> 4

/-- RomLoadError, src/nes/src/rom.rs lines 13-19.  The ioError variant stands
for RomLoadError::IoError (its io::Error payload is not modelled), the
formatError variant for RomLoadError::FormatError. -/
inductive RomLoadError where
  | ioError
  | formatError
deriving DecidableEq, Repr

/-- The Rom value produced by Rom::from_path, src/nes/src/rom.rs lines
140-178 (header plus PRG and CHR byte vectors). -/
structure Rom where
  header : INesHeader
  prg : List Nat
  chr : List Nat
deriving DecidableEq, Repr

/-- PRG_ROM_BANK_SIZE, src/nes/src/rom.rs: 16KiB per PRG bank. -/
def PRG_ROM_BANK_SIZE : Nat := 0x4000

/-- CHR_ROM_BANK_SIZE, src/nes/src/rom.rs: 8KiB per CHR bank. -/
def CHR_ROM_BANK_SIZE : Nat := 0x2000

/-- Embeds read_to_buf, src/nes/src/rom.rs lines 181-191, over a reader
modelled as the list of bytes the stream still holds: the source loops
reading into the buffer and returns an io error (wrapped by the question
mark operator into RomLoadError::IoError) when the reader is exhausted
(read returns 0) before the buffer is full. -/
def read_to_buf (n : Nat) (bytes : List Nat) : Except RomLoadError (List Nat × List Nat) :=
  if bytes.length < n then Except.error RomLoadError.ioError
  else Except.ok (bytes.take n, bytes.drop n)

/-- Embeds Rom::from_path, src/nes/src/rom.rs lines 149-178: read the 16-byte
header, fail with FormatError when the magic is not "NES" 0x1A, then read
prg_rom_size times 16384 PRG bytes and chr_rom_size times 8192 CHR bytes. -/
def Rom.from_path (bytes : List Nat) : Except RomLoadError Rom :=
  match read_to_buf 16 bytes with
  | Except.error e => Except.error e
  | Except.ok (header, rest) =>
    if header.take 4 ≠ [0x4E, 0x45, 0x53, 0x1A] then Except.error RomLoadError.formatError
    else
      match read_to_buf (header.getD 4 0 * PRG_ROM_BANK_SIZE) rest with
      | Except.error e => Except.error e
      | Except.ok (prg, rest2) =>
        match read_to_buf (header.getD 5 0 * CHR_ROM_BANK_SIZE) rest2 with
        | Except.error e => Except.error e
        | Except.ok (chr, _) =>
          Except.ok
            { header :=
                { prg_rom_size := header.getD 4 0
                  chr_rom_size := header.getD 5 0
                  flags_6 := header.getD 6 0
                  flags_7 := header.getD 7 0
                  prg_ram_size := header.getD 8 0
                  flags_9 := header.getD 9 0 }
              prg := prg
              chr := chr }

/-- A 16-byte stream: a valid header declaring one PRG bank and no CHR banks,
with no data bytes following - a truncated ROM image. -/
def truncatedRomInput : List Nat :=
  [0x4E, 0x45, 0x53, 0x1A, 1, 0, 0, 0, 0, 0, 0, 0, 0, 0, 0, 0]

/-- The Vtwx register set, src/nes/src/ppu/registers.rs lines 201-210: the
temporary VRAM address t, the VRAM address v, the first/second write toggle w
(WriteToggle, where is_first means w is false), and the fine X scroll x. -/
structure Vtwx where
  t : Nat
  v : Nat
  w : Bool
  x : Nat
deriving DecidableEq, Repr

namespace Vtwx

/-- Vtwx::new, src/nes/src/ppu/registers.rs lines 213-220. -/
def new : Vtwx := { t := 0, v := 0, w := false, x := 0 }

/-- WriteToggle::is_first: the toggle is on its first write when w is false. -/
def is_first (s : Vtwx) : Bool := !s.w

/-- Vtwx::store_ctrl, src/nes/src/ppu/registers.rs lines 222-225 (write to
port $2000): copy the nametable bits of the value into bits 10-11 of t. -/
def store_ctrl (s : Vtwx) (val : Nat) : Vtwx :=
  { s with t := s.t &&& 0x73FF ||| (val &&& 0x03) <<< 10 }

/-- Vtwx::store_scroll, src/nes/src/ppu/registers.rs lines 227-242 (write to
port $2005): first write sets fine/coarse X, second write sets fine/coarse Y;
both flip the toggle. -/
def store_scroll (s : Vtwx) (val : Nat) : Vtwx :=
  if s.is_first then
    { s with x := val &&& 0x07, t := s.t &&& 0xFFE0 ||| val >>> 3, w := !s.w }
  else
    { s with t := s.t &&& 0x0C1F ||| (val &&& 0x07) <<< 12 ||| (val &&& 0xF8) <<< 2, w := !s.w }

/-- Vtwx::store_addr, src/nes/src/ppu/registers.rs lines 244-256 (write to
port $2006): first write sets the high six address bits of t, second write
sets the low byte and copies t into v; both flip the toggle. -/
def store_addr (s : Vtwx) (val : Nat) : Vtwx :=
  if s.is_first then
    { s with t := s.t &&& 0x0FF ||| (val &&& 0x3F) <<< 8, w := !s.w }
  else
    { s with t := s.t &&& 0x7F00 ||| val, v := s.t &&& 0x7F00 ||| val, w := !s.w }

/-- Vtwx::reset_latch, src/nes/src/ppu/registers.rs lines 258-260 (run on
every read of port $2002): reset the toggle to first-write. -/
def reset_latch (s : Vtwx) : Vtwx := { s with w := false }

/-- Vtwx::increment_h, src/nes/src/ppu/registers.rs lines 266-273: coarse X
increment with nametable toggle on wrap. -/
def increment_h (s : Vtwx) : Vtwx :=
  if s.v &&& 0x001F = 0x001F then
    { s with v := (s.v ^^^ 0x400) &&& 0x7FE0 }
  else
    { s with v := s.v + 1 }

/-- Vtwx::increment_v, src/nes/src/ppu/registers.rs lines 275-300: fine Y
increment with the documented coarse-Y wrap quirks. -/
def increment_v (s : Vtwx) : Vtwx :=
  let fine_y := (s.v &&& 0x7000) >>> 0x0C
  let course_y := (s.v &&& 0x03E0) >>> 0x05
  if fine_y < 0x07 then
    { s with v := s.v + 0x1000 }
  else
    let v1 :=
      if course_y = 0x1D then (s.v ^^^ 0x0800) &&& 0x7C1F
      else if course_y = 0x001F then s.v &&& 0x7C1F
      else s.v + 0x0020
    { s with v := v1 &&& 0x0FFF }

/-- Vtwx::increment_addr, src/nes/src/ppu/registers.rs lines 302-304 (run on
every access of port $2007): the source is self.v += increment on a u16 -
the sum wraps modulo 65536 in release builds (debug builds panic on
overflow) and is never masked to 15 bits. -/
def increment_addr (s : Vtwx) (increment : Nat) : Vtwx :=
  { s with v := (s.v + increment) % 65536 }

/-- Vtwx::copy_h, src/nes/src/ppu/registers.rs lines 306-308. -/
def copy_h (s : Vtwx) : Vtwx := { s with v := s.v &&& 0x7BE0 ||| s.t &&& 0x041F }

/-- Vtwx::copy_v, src/nes/src/ppu/registers.rs lines 310-312. -/
def copy_v (s : Vtwx) : Vtwx := { s with v := s.v &&& 0x041F ||| s.t &&& 0x7BE0 }

end Vtwx

/-- The invariant stated by the specification for C4: v and t are 15-bit
values. -/
def VtwxMasked (s : Vtwx) : Prop := s.v < 0x8000 ∧ s.t < 0x8000

instance (s : Vtwx) : Decidable (VtwxMasked s) := by
  unfold VtwxMasked
  infer_instance

/-- One $2007 access with the VRAM increment set to 32 (PPUCTRL bit 2),
as applied to the Vtwx state by Ppu loadb/storeb port 7. -/
def incAddr32 (s : Vtwx) : Vtwx := s.increment_addr 32

/-- A Vtwx state reached from reset through the register ports: $2006 writes
0x3F then 0xFF (setting v to 0x3FFF), then 513 $2007 accesses with the
increment at 32. -/
def vtwxOverflowState : Vtwx := incAddr32^[513] ((Vtwx.new.store_addr 0x3F).store_addr 0xFF)

/-- PpuPosition, src/nes/src/ppu/mod.rs lines 27-33: the PPU raster position
(cycle and frame counters, pixel 0-340, scanline 0-261). -/
structure PpuPosition where
  cycle : Nat
  frame : Nat
  pixel : Nat
  scanline : Nat
deriving DecidableEq, Repr

namespace PpuPosition

/-- PpuPosition::default(): all four fields zero. -/
def init : PpuPosition := { cycle := 0, frame := 0, pixel := 0, scanline := 0 }

/-- PpuPosition::step, src/nes/src/ppu/mod.rs lines 44-64: advance one PPU
cycle; the last pixel of a scanline is 340, or 339 on the prerender line of
an odd frame when rendering is enabled (the odd-frame skip); wrapping the
last scanline increments the frame counter. -/
def step (rendering_enabled : Bool) (s : PpuPosition) : PpuPosition :=
  if s.pixel = 340 ∨
      (s.pixel = 339 ∧ rendering_enabled = true ∧ s.scanline = 261 ∧ s.frame % 2 = 1) then
    if s.scanline = 261 then
      { cycle := s.cycle + 1, frame := s.frame + 1, pixel := 0, scanline := 0 }
    else
      { cycle := s.cycle + 1, frame := s.frame, pixel := 0, scanline := s.scanline + 1 }
  else
    { cycle := s.cycle + 1, frame := s.frame, pixel := s.pixel + 1, scanline := s.scanline }

end PpuPosition

/-- The PPU-position projection of Nes::step, src/nes/src/nes.rs lines 72-97:
each orchestrator step runs Ppu::step exactly three times (the for loop over
0..3), and Ppu::step advances the position exactly once (the single
self.pos.step call at src/nes/src/ppu/mod.rs line 338); nothing else in
Nes::step touches the PPU position.  With rendering disabled throughout, the
rendering_enabled argument is false on every call. -/
def nesStepPpu (rendering_enabled : Bool) (s : PpuPosition) : PpuPosition :=
  (PpuPosition.step rendering_enabled)^[3] s

/-- Stepping the Nes orchestrator n times from power-on with rendering
disabled, projected to the PPU position. -/
def nesRunPpu (n : Nat) : PpuPosition := (nesStepPpu false)^[n] PpuPosition.init

/-- FrameCounterResult, src/nes/src/audio/frame_counter.rs lines 16-20. -/
structure FrameCounterResult where
  quarter_frame : Bool
  half_frame : Bool
  irq : Bool
deriving DecidableEq, Repr

/-- FrameCounter, src/nes/src/audio/frame_counter.rs lines 22-28.  mode5 is
true for SequencerMode::FiveStep and false for FourStep. -/
structure FrameCounter where
  cycle : Nat
  irq_flag : Bool
  irq_inhibit : Bool
  mode5 : Bool
  reset_countdown : Nat
deriving DecidableEq, Repr

namespace FrameCounter

/-- FrameCounter::new, src/nes/src/audio/frame_counter.rs lines 31-39. -/
def new : FrameCounter :=
  { cycle := 0, irq_flag := false, irq_inhibit := false, mode5 := false, reset_countdown := 0 }

/-- FrameCounter::step4, src/nes/src/audio/frame_counter.rs lines 64-100:
wrap the cycle at CLOCK_FOUR + 1 = 29830, latch the IRQ flag at cycle 29829
unless inhibited, and emit quarter/half pulses at the four clock points. -/
def step4 (s : FrameCounter) : FrameCounter × FrameCounterResult :=
  let cycle := s.cycle % (29829 + 1)
  let irq_flag := if cycle = 29829 ∧ s.irq_inhibit = false then true else s.irq_flag
  let s := { s with cycle := cycle, irq_flag := irq_flag }
  if cycle = 7457 then (s, { quarter_frame := true, half_frame := false, irq := irq_flag })
  else if cycle = 14913 then (s, { quarter_frame := true, half_frame := true, irq := irq_flag })
  else if cycle = 22371 then (s, { quarter_frame := true, half_frame := false, irq := irq_flag })
  else if cycle = 29829 then (s, { quarter_frame := true, half_frame := true, irq := irq_flag })
  else (s, { quarter_frame := false, half_frame := false, irq := irq_flag })

/-- FrameCounter::step5, src/nes/src/audio/frame_counter.rs lines 102-134. -/
def step5 (clock_quarter_half : Bool) (s : FrameCounter) : FrameCounter × FrameCounterResult :=
  let cycle := s.cycle % (37281 + 1)
  let s := { s with cycle := cycle }
  if cycle = 7457 then
    (s, { quarter_frame := true, half_frame := clock_quarter_half, irq := s.irq_flag })
  else if cycle = 14913 then (s, { quarter_frame := true, half_frame := true, irq := s.irq_flag })
  else if cycle = 22371 then
    (s, { quarter_frame := true, half_frame := clock_quarter_half, irq := s.irq_flag })
  else if cycle = 37281 then (s, { quarter_frame := true, half_frame := true, irq := s.irq_flag })
  else
    (s, { quarter_frame := clock_quarter_half, half_frame := clock_quarter_half, irq := s.irq_flag })

/-- FrameCounter::step, src/nes/src/audio/frame_counter.rs lines 41-62: when
the delayed reset fires (countdown 1) the cycle resets to 0 (and, in 5-step
mode only, the quarter/half clocks pulse); otherwise the cycle increments;
a pending countdown is decremented; then the mode-specific step runs. -/
def step (s : FrameCounter) : FrameCounter × FrameCounterResult :=
  let clock_quarter_half := decide (s.reset_countdown = 1) && s.mode5
  let s1 :=
    if s.reset_countdown = 1 then { s with cycle := 0 } else { s with cycle := s.cycle + 1 }
  let s2 :=
    if s1.reset_countdown > 0 then { s1 with reset_countdown := s1.reset_countdown - 1 } else s1
  if s2.mode5 then step5 clock_quarter_half s2 else step4 s2

/-- Iterate FrameCounter::step k times, keeping only the state. -/
def run (k : Nat) (s : FrameCounter) : FrameCounter := (fun s => (step s).1)^[k] s

/-- The result returned by the k-th call to FrameCounter::step (k counted
from 1) when stepping repeatedly from s. -/
def resultAt (k : Nat) (s : FrameCounter) : FrameCounterResult := (step (run (k - 1) s)).2

end FrameCounter

/-- Pointwise update of a byte-array-as-function. -/
def upd (f : Nat → Nat) (i v : Nat) : Nat → Nat := fun j => if j = i then v else f j

/-- TickState, src/nes/src/ppu/oam.rs lines 3-17: the sprite-evaluation state
machine states. -/
inductive TickState where
  | readYPosition
  | writeYPosition (y : Nat)
  | readTileIndex
  | writeTileIndex (t : Nat)
  | readAttributes
  | writeAttributes (a : Nat)
  | readXPosition
  | writeXPosition (x : Nat)
  | incrementN
  | overflowDetection (m : Nat)
  | phase3ExtraRead (m : Nat)
  | busyLoop
deriving DecidableEq, Repr

/-- Oam, src/nes/src/ppu/oam.rs lines 19-26: primary OAM (256 bytes),
secondary OAM (32 bytes), the OAMADDR register, the scan index n, and the
tick state.  Both byte arrays are modelled as total functions. -/
structure Oam where
  addr : Nat
  oam : Nat → Nat
  oam2 : Nat → Nat
  oam2_index : Nat
  n : Nat
  tick_state : TickState

namespace Oam

/-- Oam::in_range, src/nes/src/ppu/oam.rs lines 79-82: a sprite with Y
coordinate value is on the current scanline when
value <= scanline < value + 8. -/
def in_range (current_scanline value : Nat) : Bool :=
  decide (current_scanline ≥ value ∧ current_scanline < value + 8)

/-- Oam::increment_n, src/nes/src/ppu/oam.rs lines 188-190. -/
def increment_n (s : Oam) : Oam := { s with n := (s.n + 1) % 64 }

/-- Oam::reset_oam2, src/nes/src/ppu/oam.rs lines 72-77 (run at pixel 1 of
every visible scanline): fill secondary OAM with 0xFF and reset the scan. -/
def reset_oam2 (s : Oam) : Oam :=
  { s with oam2 := fun _ => 0xFF, oam2_index := 0, tick_state := TickState.readYPosition, n := 0 }

/-- Oam::sprite_eval, src/nes/src/ppu/oam.rs lines 84-186, as a
fuel-indexed step (the source recurses exactly once, from the IncrementN
arm, and the routed state is never IncrementN again, so fuel 2 realises the
source exactly; the fuel-0 fallback is unreachable).  In the
WriteYPosition arm the source first sets the tick state to IncrementN when
oam2_index is 8, but that assignment is dead: the in_range branch below
overwrites the tick state unconditionally.  The IncrementN arm evaluates
the routed state within the same tick and discards that inner overflow
result (the source calls self.sprite_eval and ignores its return value). -/
def sprite_eval_tick (fuel : Nat) (current_scanline : Nat) (s : Oam) : Oam × Bool :=
  match fuel with
  | 0 => (s, false)
  | fuel + 1 =>
    match s.tick_state with
    | TickState.readYPosition =>
      ({ s with tick_state := TickState.writeYPosition (s.oam (s.addr + s.n * 4)) }, false)
    | TickState.writeYPosition y =>
      let s := { s with oam2 := upd s.oam2 (s.oam2_index * 4) y }
      if in_range current_scanline y then ({ s with tick_state := TickState.readTileIndex }, false)
      else ({ s with tick_state := TickState.incrementN }, false)
    | TickState.readTileIndex =>
      ({ s with tick_state := TickState.writeTileIndex (s.oam (s.addr + s.n * 4 + 1)) }, false)
    | TickState.writeTileIndex t =>
      ({ s with oam2 := upd s.oam2 (s.oam2_index * 4 + 1) t,
                tick_state := TickState.readAttributes }, false)
    | TickState.readAttributes =>
      ({ s with tick_state := TickState.writeAttributes (s.oam (s.addr + s.n * 4 + 2)) }, false)
    | TickState.writeAttributes a =>
      ({ s with oam2 := upd s.oam2 (s.oam2_index * 4 + 2) a,
                tick_state := TickState.readXPosition }, false)
    | TickState.readXPosition =>
      ({ s with tick_state := TickState.writeXPosition (s.oam (s.addr + s.n * 4 + 3)) }, false)
    | TickState.writeXPosition x =>
      ({ s with oam2 := upd s.oam2 (s.oam2_index * 4 + 3) x,
                oam2_index := s.oam2_index + 1,
                tick_state := TickState.incrementN }, false)
    | TickState.incrementN =>
      let s := s.increment_n
      let s :=
        { s with tick_state :=
            if s.n = 0 then TickState.busyLoop
            else if s.oam2_index < 7 then TickState.readYPosition
            else TickState.overflowDetection 0 }
      ((sprite_eval_tick fuel current_scanline s).1, false)
    | TickState.overflowDetection m =>
      if in_range current_scanline (s.oam (s.addr + s.n * 4 + m)) then
        ({ s with tick_state := TickState.phase3ExtraRead 1 }, true)
      else if m < 3 then ({ s with tick_state := TickState.overflowDetection (m + 1) }, false)
      else
        let s := s.increment_n
        if s.n = 0 then ({ s with tick_state := TickState.busyLoop }, false)
        else ({ s with tick_state := TickState.overflowDetection 0 }, false)
    | TickState.phase3ExtraRead m =>
      if m < 4 then ({ s with tick_state := TickState.phase3ExtraRead (m + 1) }, false)
      else ({ s.increment_n with tick_state := TickState.busyLoop }, false)
    | TickState.busyLoop => (s.increment_n, false)

/-- One call of Oam::sprite_eval (one PPU tick of sprite evaluation). -/
def sprite_eval (current_scanline : Nat) (s : Oam) : Oam × Bool :=
  sprite_eval_tick 2 current_scanline s

end Oam

/-- Run k sprite-evaluation ticks, accumulating the overflow results the way
Ppu::step does (src/nes/src/ppu/mod.rs lines 310-314: each tick ORs the
returned overflow into the sprite-overflow status flag). -/
def evalRun (current_scanline : Nat) : Nat → Oam → Bool → Oam × Bool
  | 0, s, acc => (s, acc)
  | k + 1, s, acc =>
    let r := Oam.sprite_eval current_scanline s
    evalRun current_scanline k r.1 (acc || r.2)

/-- Primary OAM holding exactly eight sprites (entries 0-7) with Y = 0, every
other byte 0xF0: eight sprites are in range on scanline 0, all others out of
range. -/
def oamEight : Nat → Nat := fun i => if i < 32 ∧ i % 4 = 0 then 0 else 0xF0

/-- Primary OAM holding exactly seven in-range sprites (entries 0-6, Y = 0)
on scanline 0; entry 7 has Y = 0xF0 (out of range) but its tile-index byte
(primary OAM byte 29) is 0, which is in range on scanline 0 if misread as a
Y coordinate.  Every other byte is 0xF0. -/
def oamSeven : Nat → Nat :=
  fun i => if i < 28 ∧ i % 4 = 0 then 0 else if i = 29 then 0 else 0xF0

/-- The number of sprites in primary OAM whose Y coordinate is in range on
the given scanline (the naive in-range count the claim speaks about). -/
def inRangeSpriteCount (current_scanline : Nat) (o : Nat → Nat) : Nat :=
  (List.range 64).countP (fun k => Oam.in_range current_scanline (o (k * 4)))

/-- The Oam state at the start of sprite evaluation for a scanline: OAMADDR
reset to 0 (Ppu::step resets it during pixels 257-320 of the previous line)
and reset_oam2 just run (Ppu::step runs it at pixel 1). -/
def oamStart (o : Nat → Nat) : Oam :=
  Oam.reset_oam2
    { addr := 0, oam := o, oam2 := fun _ => 0, oam2_index := 0, n := 0,
      tick_state := TickState.readYPosition }

/-- The CPU state touched by Cpu::dma, src/nes/src/cpu.rs lines 231-246: the
cycle counter, the memory the transfer reads from (modelled as
side-effect-free reads, as for a RAM source page), and the PPU OAM port
state reached through storeb 0x2004 (OAMADDR, OAM bytes, and the PPUSTATUS
last-write latch). -/
structure DmaState where
  cy : Nat
  ram : Nat → Nat
  oamAddr : Nat
  oam : Nat → Nat
  lastWrite : Nat

/-- A store to CPU address 0x2004: CpuBus::storeb routes addresses in
0x2000-0x3FFF to Ppu::storeb (src/nes/src/cpubus.rs lines 88-103), whose
port 4 arm (src/nes/src/ppu/mod.rs lines 596-627) latches the written value,
stores it at OAMADDR, and increments OAMADDR modulo 0x100
(Oam::increment_addr, src/nes/src/ppu/oam.rs lines 64-66). -/
def oamDataStore (s : DmaState) (val : Nat) : DmaState :=
  { s with lastWrite := val, oam := upd s.oam s.oamAddr val, oamAddr := (s.oamAddr + 1) % 256 }

/-- Embeds Cpu::dma, src/nes/src/cpu.rs lines 231-246: start is
(page as u16) shl 8, end is start + PAGE_SIZE as a u16 (release builds wrap
modulo 65536; for page 0xFF the sum overflows and the end becomes 0, making
the Rust range start..end empty; debug builds panic on the overflow); the
cycle counter gains 513 when it was even and 514 when odd; then each address
in start..end is loaded and stored to 0x2004. -/
def dma (s : DmaState) (page : Nat) : DmaState :=
  let start := page % 256 * 256
  let endAddr := (start + 256) % 65536
  let s := if s.cy % 2 = 0 then { s with cy := s.cy + 513 } else { s with cy := s.cy + 514 }
  (List.range (endAddr - start)).foldl (fun st i => oamDataStore st (st.ram (start + i) % 256)) s

/-- A DMA example state: cycle counter even, RAM holding (a + 1) mod 256 at
address a, OAM all zero, OAMADDR 0. -/
def dmaExampleEven : DmaState :=
  { cy := 0, ram := fun a => (a + 1) % 256, oamAddr := 0, oam := fun _ => 0, lastWrite := 0 }

/-- A DMA example state starting on an odd cycle. -/
def dmaExampleOdd : DmaState :=
  { cy := 1, ram := fun a => (a + 1) % 256, oamAddr := 0, oam := fun _ => 0, lastWrite := 0 }

/-- The PPU state touched by the port-0 arm of Ppu::storeb,
src/nes/src/ppu/mod.rs lines 596-619: the frame counter (for
PpuPosition::is_warmed_up), the raster position (for
PpuPosition::is_in_vblank), the vblank flag of PPUSTATUS, PPUCTRL, the Vtwx
registers, the immediate-NMI latch, and the PPUSTATUS last-write latch. -/
structure PpuPortState where
  frame : Nat
  scanline : Nat
  pixel : Nat
  vblankStarted : Bool
  ppuctrl : Nat
  vtwx : Vtwx
  immediateNmi : Bool
  lastWrite : Nat
deriving DecidableEq, Repr

/-- PpuPosition::is_warmed_up, src/nes/src/ppu/mod.rs lines 36-38: the PPU
is warmed up once the frame counter is positive. -/
def is_warmed_up (s : PpuPortState) : Bool := decide (s.frame > 0)

/-- PpuPosition::is_in_vblank, src/nes/src/ppu/mod.rs lines 40-42. -/
def is_in_vblank (s : PpuPortState) : Bool :=
  decide (s.scanline ≥ 240 ∧ s.scanline < 261 ∨ s.scanline = 261 ∧ s.pixel = 0)

/-- The two panic sites in the port-0 write arm of Ppu::storeb. -/
inductive PpuPanic where
  | spriteSize8x16
  | secondaryMode
deriving DecidableEq, Repr

/-- Outcome of a port-0 register write: ignored during warm-up, a panic
(emulation halt), or a completed store. -/
inductive Port0Outcome where
  | ignored (s : PpuPortState)
  | halted (p : PpuPanic)
  | stored (s : PpuPortState)

/-- Embeds the 0x00 arm of Ppu::storeb, src/nes/src/ppu/mod.rs lines
596-619 (the dispatch is on addr and 0x07, so this arm serves $2000 and
every mirror of it): the last-write latch is set first; a write before
warm-up is ignored; a value with bit 5 set panics (8x16 sprites), a value
with bit 6 set panics (PPU secondary mode); otherwise the immediate-NMI
latch may be set and PPUCTRL and the Vtwx nametable bits are updated. -/
def storePort0 (s : PpuPortState) (val : Nat) : Port0Outcome :=
  let s := { s with lastWrite := val }
  if is_warmed_up s = false then Port0Outcome.ignored s
  else if val &&& 1 <<< 5 ≠ 0 then Port0Outcome.halted PpuPanic.spriteSize8x16
  else if val &&& 1 <<< 6 ≠ 0 then Port0Outcome.halted PpuPanic.secondaryMode
  else
    let s :=
      if val &&& 1 <<< 7 ≠ 0 ∧ s.vblankStarted = true ∧ is_in_vblank s = true then
        { s with immediateNmi := true }
      else s
    Port0Outcome.stored { s with ppuctrl := val, vtwx := s.vtwx.store_ctrl val }

/-- A warmed-up PPU port state (one full frame completed). -/
def warmPpuState : PpuPortState :=
  { frame := 1, scanline := 0, pixel := 0, vblankStarted := false, ppuctrl := 0,
    vtwx := Vtwx.new, immediateNmi := false, lastWrite := 0 }

/-- An iNES header with flags byte 7 equal to 0x01 (a VS-Unisystem flag bit,
not a mapper nibble bit) and every other byte zero. -/
def headerFlags7One : INesHeader :=
  { prg_rom_size := 0, chr_rom_size := 0, flags_6 := 0, flags_7 := 1,
    prg_ram_size := 0, flags_9 := 0 }

/-! ## Theorems -/

/-- Bitwise window extraction: masking with a block of w one-bits starting at
bit k extracts the bits k..k+w-1 of v, i.e. v / 2 pow k mod 2 pow w shifted
back up by k. -/
theorem and_mask_window (v k w : Nat) :
    v &&& (2 ^ w - 1) <<< k = 2 ^ k * (v / 2 ^ k % 2 ^ w) := by
  apply Nat.eq_of_testBit_eq
  intro i
  rw [Nat.testBit_and, Nat.testBit_shiftLeft, Nat.testBit_mul_pow_two,
    Nat.testBit_mod_two_pow, Nat.testBit_two_pow_sub_one, ← Nat.shiftRight_eq_div_pow,
    Nat.testBit_shiftRight]
  by_cases h : k ≤ i
  · have hv : k + (i - k) = i := by omega
    simp [h, hv, Bool.and_comm]
  · simp [h]

/-- Or of two 15-bit values is a 15-bit value. -/
theorem or_lt_32768 {a b : Nat} (ha : a < 32768) (hb : b < 32768) : a ||| b < 32768 := by
  have e : (32768 : Nat) = 2 ^ 15 := by norm_num
  rw [e] at ha hb ⊢
  exact Nat.or_lt_two_pow ha hb

/-- The word macro is plain positional arithmetic when the low byte fits. -/
theorem word_eq_add (lo hi : Nat) (h : lo < 256) : word lo hi = 256 * hi + lo := by
  unfold word
  rw [Nat.shiftLeft_eq]
  have h8 : lo < 2 ^ 8 := by norm_num [h]
  rw [show hi * 2 ^ 8 = 2 ^ 8 * hi from Nat.mul_comm _ _, ← Nat.mul_add_lt_is_or h8 hi]

/-- Masking with 0xFF is reduction modulo 256. -/
theorem and_255_eq_mod (v : Nat) : v &&& 0xFF = v % 256 := by
  have h := Nat.and_pow_two_sub_one_eq_mod v 8
  norm_num at h
  exact h

/-- Masking with 0xFF00 extracts the high byte of a 16-bit value. -/
theorem and_ff00_eq (v : Nat) : v &&& 0xFF00 = 256 * (v / 256 % 256) := by
  have h := and_mask_window v 8 8
  norm_num at h
  exact h

/-- C1: the claim that relative (branch) addressing resolves the operand as a
signed 8-bit offset fails on the code.  Cpu::rel zero-extends the operand
byte (a u8-to-i32 conversion), so at a branch instruction at 0x8000 (rel is
entered with pc = 0x8001) with operand byte 0xFE the code computes target
0x8100, while the claimed signed resolution (0x8000 + 2 - 2) gives 0x8000;
the two disagree, and for operands 0x80-0xFF the code target always lies
after the instruction, never before it. -/
theorem rel_zero_extends_cex :
    Cpu.rel 0x8001 0xFE = 0x8100 ∧ Cpu.relSpec 0x8001 0xFE = 0x8000 ∧
    Cpu.rel 0x8001 0xFE ≠ Cpu.relSpec 0x8001 0xFE := by decide

/-- C8: the claim that INesHeader::mapper returns
(flags_7 and 0xF0) or (flags_6 shr 4) fails on the code: the source
multiplies flags_7 by 0xF0 instead of masking.  With flags_6 = 0 and
flags_7 = 0x01 the code returns 0xF0 where the claimed combination returns
0x00. -/
theorem mapper_multiplies_cex :
    headerFlags7One.mapper = 0xF0 ∧ headerFlags7One.mapperSpec = 0x00 ∧
    headerFlags7One.mapper ≠ headerFlags7One.mapperSpec := by decide

/-- C5: the claim that a store to $4014 of page byte p copies the 256 bytes
at p*0x100..p*0x100+0xFF into PPU OAM fails on the code at p = 0xFF: the u16
sum start + PAGE_SIZE wraps to 0, the Rust range 0xFF00..0 is empty, and no
byte is copied (the first conjunct, for every starting state), although the
cycle counter still advances by 513 or 514 according to the parity of the
starting cycle.  For an in-range page (0xFE here) the 256-byte copy and the
cycle accounting behave as claimed. -/
theorem dma_page_ff_copies_nothing :
    (∀ s : DmaState, (dma s 0xFF).oam = s.oam ∧ (dma s 0xFF).oamAddr = s.oamAddr) ∧
    (dma dmaExampleEven 0xFF).cy = dmaExampleEven.cy + 513 ∧
    (dma dmaExampleOdd 0xFF).cy = dmaExampleOdd.cy + 514 ∧
    (dma dmaExampleEven 0xFE).oam 0 = dmaExampleEven.ram 0xFE00 % 256 ∧
    (dma dmaExampleEven 0xFE).oam 255 = dmaExampleEven.ram 0xFEFF % 256 ∧
    (dma dmaExampleEven 0xFE).oamAddr = 0 ∧
    (dma dmaExampleEven 0xFE).cy = dmaExampleEven.cy + 513 := by
  refine ⟨?_, by decide, by decide, by decide, by decide, by decide, by decide⟩
  intro s
  unfold dma
  by_cases h : s.cy % 2 = 0 <;> simp [h]

/-- C3: the claim about Oam::sprite_eval fails on the code.  With exactly
eight in-range sprites (primary OAM oamEight, scanline 0) the code copies
only seven of them into secondary OAM - after the seventh copy the
oam2_index < 7 test routes the machine into overflow detection, so byte 28
of secondary OAM (the Y of the eighth sprite slot) keeps its 0xFF fill
value instead of the eighth in-range sprite.  With only seven in-range
sprites and a stray tile byte (primary OAM oamSeven) the overflow scan
misreads byte 29 as a Y coordinate and reports sprite overflow, although
the scanline holds fewer than nine in-range sprites.  The runs cover the
192 evaluation ticks of one visible scanline (pixels 65-256). -/
theorem sprite_eval_seven_sprite_cex :
    inRangeSpriteCount 0 oamEight = 8 ∧
    (evalRun 0 192 (oamStart oamEight) false).2 = false ∧
    (evalRun 0 192 (oamStart oamEight) false).1.oam2 28 = 0xFF ∧
    inRangeSpriteCount 0 oamSeven = 7 ∧
    (evalRun 0 192 (oamStart oamSeven) false).2 = true := by decide

/-- C6: for an indirect JMP whose vector ends in 0xFF the new program counter
takes its low byte from the vector address and its high byte from the first
byte of the same page (the vector minus 0xFF, i.e. vector and 0xFF00), not
from the next page; for every other vector the new program counter is the
little-endian word at the vector. -/
theorem jmp_indirect_page_wrap (mem : Nat → Nat) (v : Nat) (hv : v < 65536) :
    (v % 256 = 0xFF → Cpu.jmpIndirect mem v = mem v % 256 + 256 * (mem (v - 0xFF) % 256)) ∧
    (v % 256 ≠ 0xFF → Cpu.jmpIndirect mem v = mem v % 256 + 256 * (mem (v + 1) % 256)) := by
  unfold Cpu.jmpIndirect loadw8 loadb8
  rw [and_255_eq_mod, and_ff00_eq]
  constructor
  · intro h
    have hge : 0xFF ≤ v := by omega
    have hpage : 256 * (v / 256 % 256) = v - 0xFF := by omega
    rw [if_pos h, hpage]
    have h2 : v - 0xFF + 0xFF = v := by omega
    rw [h2, word_eq_add _ _ (Nat.mod_lt _ (by norm_num))]
    omega
  · intro h
    rw [if_neg h, word_eq_add _ _ (Nat.mod_lt _ (by norm_num))]
    omega

/-- Witness for jmp_indirect_page_wrap at the concrete vector 0x02FF of the
spec example, with memory holding its own address low byte. -/
theorem jmp_indirect_page_wrap_witness :
    (0x02FF : Nat) < 65536 ∧
    (((0x02FF : Nat) % 256 = 0xFF →
        Cpu.jmpIndirect (fun a => a) 0x02FF =
          (fun a : Nat => a) 0x02FF % 256 + 256 * ((fun a : Nat => a) (0x02FF - 0xFF) % 256)) ∧
      ((0x02FF : Nat) % 256 ≠ 0xFF →
        Cpu.jmpIndirect (fun a => a) 0x02FF =
          (fun a : Nat => a) 0x02FF % 256 + 256 * ((fun a : Nat => a) (0x02FF + 1) % 256))) :=
  ⟨by decide, jmp_indirect_page_wrap (fun a => a) 0x02FF (by decide)⟩

/-- C10: once the PPU has completed at least one frame (is_warmed_up), a
write through register port 0 ($2000 and every mirror, since Ppu::storeb
dispatches on addr and 0x07) of a value with bit 5 set (8x16 sprite size) or
bit 6 set (PPU secondary mode) reaches a panic branch and halts emulation
instead of updating PPUCTRL. -/
theorem storeb_port0_panics (s : PpuPortState) (val : Nat) (hw : 0 < s.frame)
    (hbit : val &&& 1 <<< 5 ≠ 0 ∨ val &&& 1 <<< 6 ≠ 0) :
    storePort0 s val = Port0Outcome.halted PpuPanic.spriteSize8x16 ∨
      storePort0 s val = Port0Outcome.halted PpuPanic.secondaryMode := by
  have hwarm : ¬ is_warmed_up { s with lastWrite := val } = false := by
    simp [is_warmed_up]
    omega
  simp only [storePort0]
  rw [if_neg hwarm]
  by_cases h5 : val &&& 1 <<< 5 ≠ 0
  · rw [if_pos h5]
    exact Or.inl rfl
  · rw [if_neg h5, if_pos (hbit.resolve_left h5)]
    exact Or.inr rfl

/-- Witness for storeb_port0_panics: a warmed-up PPU and the PPUCTRL value
0x20 (bit 5 set, 8x16 sprites). -/
theorem storeb_port0_panics_witness :
    0 < warmPpuState.frame ∧
    ((0x20 : Nat) &&& 1 <<< 5 ≠ 0 ∨ (0x20 : Nat) &&& 1 <<< 6 ≠ 0) ∧
    (storePort0 warmPpuState 0x20 = Port0Outcome.halted PpuPanic.spriteSize8x16 ∨
      storePort0 warmPpuState 0x20 = Port0Outcome.halted PpuPanic.secondaryMode) :=
  ⟨by decide, by decide, storeb_port0_panics warmPpuState 0x20 (by decide) (by decide)⟩

/-- C9 counterexample: a stream holding a well-formed 16-byte header that
declares one PRG bank but no data bytes makes Rom::from_path return the
IoError variant (the unexpected-eof io error from read_to_buf wrapped by the
question-mark operator), not the FormatError variant the claim names; so a
truncated stream is reported, but not as a format error. -/
theorem rom_truncated_gives_io_error_cex :
    Rom.from_path truncatedRomInput = Except.error RomLoadError.ioError ∧
    RomLoadError.ioError ≠ RomLoadError.formatError := ⟨rfl, by decide⟩

/-- C9 amended: Rom::from_path never yields a Rom value on a bad or
truncated stream, and always reports the failure to the caller: a stream
shorter than the 16-byte header gives Err(IoError); a complete header whose
magic differs from "NES" 0x1A gives Err(FormatError); and a stream whose
magic matches but which ends before the declared
prg_banks*16384 + chr_banks*8192 data bytes gives Err(IoError) - not
FormatError as the claim says for the truncated case. -/
theorem rom_from_path_error_cases (bytes : List Nat) :
    (bytes.length < 16 → Rom.from_path bytes = Except.error RomLoadError.ioError) ∧
    (16 ≤ bytes.length → (bytes.take 16).take 4 ≠ [0x4E, 0x45, 0x53, 0x1A] →
      Rom.from_path bytes = Except.error RomLoadError.formatError) ∧
    (16 ≤ bytes.length → (bytes.take 16).take 4 = [0x4E, 0x45, 0x53, 0x1A] →
      bytes.length <
          16 + (bytes.take 16).getD 4 0 * 16384 + (bytes.take 16).getD 5 0 * 8192 →
      Rom.from_path bytes = Except.error RomLoadError.ioError) := by
  unfold Rom.from_path read_to_buf PRG_ROM_BANK_SIZE CHR_ROM_BANK_SIZE
  refine ⟨fun h1 => ?_, fun h1 h2 => ?_, fun h1 h2 h3 => ?_⟩
  · rw [if_pos h1]
  · have hn : ¬ bytes.length < 16 := by omega
    simp [hn, h2]
  · have hn : ¬ bytes.length < 16 := by omega
    have e4 : (List.take 16 bytes).getD 4 0 = bytes[4]?.getD 0 := by simp
    have e5 : (List.take 16 bytes).getD 5 0 = bytes[5]?.getD 0 := by simp
    rw [e4, e5] at h3
    by_cases h4 : bytes.length - 16 < bytes[4]?.getD 0 * 16384
    · simp [hn, h2, h4]
    · have h5 : bytes.length - (16 + bytes[4]?.getD 0 * 16384) < bytes[5]?.getD 0 * 8192 := by
        omega
      simp [hn, h2, h4, h5]

/-- Witness for rom_from_path_error_cases, exercising all three error paths:
an 8-byte stream (shorter than the header), a 16-byte all-zero stream (bad
magic), and the truncated one-PRG-bank stream. -/
theorem rom_from_path_error_cases_witness :
    Rom.from_path (List.replicate 8 0) = Except.error RomLoadError.ioError ∧
    Rom.from_path (List.replicate 16 0) = Except.error RomLoadError.formatError ∧
    Rom.from_path truncatedRomInput = Except.error RomLoadError.ioError :=
  ⟨(rom_from_path_error_cases (List.replicate 8 0)).1 (by decide),
    (rom_from_path_error_cases (List.replicate 16 0)).2.1 (by decide) (by decide),
    (rom_from_path_error_cases truncatedRomInput).2.2 (by decide) (by decide) (by decide)⟩

/-- C4 amended: every Vtwx operation reachable through the PPU register
ports keeps v and t below 2 pow 15, except increment_addr (the $2007 address
increment), which adds the increment to v as a u16 sum (wrapping modulo
65536, never masked to 15 bits; it leaves t unchanged), so v can exceed
0x7FFF; and w flips on every $2005 write (store_scroll) and $2006 write
(store_addr) and resets to first-write on every $2002 read (reset_latch). -/
theorem vtwx_ops_masked (s : Vtwx) (val inc : Nat) (h : VtwxMasked s) (hval : val < 256) :
    VtwxMasked (s.store_ctrl val) ∧ VtwxMasked (s.store_scroll val) ∧
    VtwxMasked (s.store_addr val) ∧ VtwxMasked s.reset_latch ∧
    VtwxMasked s.increment_h ∧ VtwxMasked s.increment_v ∧
    VtwxMasked s.copy_h ∧ VtwxMasked s.copy_v ∧
    (s.increment_addr inc).t = s.t ∧ (s.increment_addr inc).v = (s.v + inc) % 65536 ∧
    (s.store_scroll val).w = !s.w ∧ (s.store_addr val).w = !s.w ∧
    s.reset_latch.w = false := by
  obtain ⟨hv, ht⟩ := h
  refine ⟨⟨hv, ?_⟩, ?_, ?_, ⟨hv, ht⟩, ?_, ?_, ?_, ?_, rfl, rfl, ?_, ?_, rfl⟩
  · -- store_ctrl keeps t masked
    have a1 : s.t &&& 0x73FF ≤ 0x73FF := Nat.and_le_right
    have a2 : (val &&& 0x03) <<< 10 ≤ 3 <<< 10 := by
      rw [Nat.shiftLeft_eq, Nat.shiftLeft_eq]
      exact Nat.mul_le_mul_right _ Nat.and_le_right
    exact or_lt_32768 (by omega) (by omega)
  · -- store_scroll
    simp only [Vtwx.store_scroll]
    split
    · refine ⟨hv, ?_⟩
      have a1 : s.t &&& 0xFFE0 ≤ s.t := Nat.and_le_left
      have a2 : val >>> 3 ≤ val := by
        rw [Nat.shiftRight_eq_div_pow]
        exact Nat.div_le_self _ _
      exact or_lt_32768 (by omega) (by omega)
    · refine ⟨hv, ?_⟩
      have a1 : s.t &&& 0x0C1F ≤ 0x0C1F := Nat.and_le_right
      have a2 : (val &&& 0x07) <<< 12 ≤ 7 <<< 12 := by
        rw [Nat.shiftLeft_eq, Nat.shiftLeft_eq]
        exact Nat.mul_le_mul_right _ Nat.and_le_right
      have a3 : (val &&& 0xF8) <<< 2 ≤ 0xF8 <<< 2 := by
        rw [Nat.shiftLeft_eq, Nat.shiftLeft_eq]
        exact Nat.mul_le_mul_right _ Nat.and_le_right
      exact or_lt_32768 (or_lt_32768 (by omega) (by omega)) (by omega)
  · -- store_addr
    simp only [Vtwx.store_addr]
    split
    · refine ⟨hv, ?_⟩
      have a1 : s.t &&& 0x0FF ≤ 0x0FF := Nat.and_le_right
      have a2 : (val &&& 0x3F) <<< 8 ≤ 0x3F <<< 8 := by
        rw [Nat.shiftLeft_eq, Nat.shiftLeft_eq]
        exact Nat.mul_le_mul_right _ Nat.and_le_right
      exact or_lt_32768 (by omega) (by omega)
    · have a1 : s.t &&& 0x7F00 ≤ 0x7F00 := Nat.and_le_right
      have hb : s.t &&& 0x7F00 ||| val < 32768 := or_lt_32768 (by omega) (by omega)
      exact ⟨hb, hb⟩
  · -- increment_h
    simp only [Vtwx.increment_h]
    split
    · exact ⟨lt_of_le_of_lt Nat.and_le_right (by norm_num), ht⟩
    · refine ⟨?_, ht⟩
      rename_i hc
      show s.v + 1 < 32768
      by_contra hbig
      have hvv : s.v = 32767 := by omega
      rw [hvv] at hc
      exact hc (by decide)
  · -- increment_v
    simp only [Vtwx.increment_v]
    split
    · refine ⟨?_, ht⟩
      rename_i hc
      have e : ((2 ^ 3 - 1) <<< 12 : Nat) = 0x7000 := by decide
      rw [← e, and_mask_window, Nat.shiftRight_eq_div_pow,
        Nat.mul_div_cancel_left _ (by norm_num : (0 : Nat) < 2 ^ 12)] at hc
      have hc2 : s.v / 2 ^ 12 % 2 ^ 3 < 7 := hc
      norm_num at hc2
      show s.v + 4096 < 32768
      omega
    · exact ⟨lt_of_le_of_lt Nat.and_le_right (by norm_num), ht⟩
  · -- copy_h
    exact ⟨or_lt_32768 (lt_of_le_of_lt Nat.and_le_right (by norm_num))
      (lt_of_le_of_lt Nat.and_le_right (by norm_num)), ht⟩
  · -- copy_v
    exact ⟨or_lt_32768 (lt_of_le_of_lt Nat.and_le_right (by norm_num))
      (lt_of_le_of_lt Nat.and_le_right (by norm_num)), ht⟩
  · -- store_scroll flips w
    simp only [Vtwx.store_scroll]
    split <;> rfl
  · -- store_addr flips w
    simp only [Vtwx.store_addr]
    split <;> rfl

/-- Witness for vtwx_ops_masked at the reset state with value 0 and
increment 1. -/
theorem vtwx_ops_masked_witness :
    VtwxMasked Vtwx.new ∧ (0 : Nat) < 256 ∧
    (VtwxMasked (Vtwx.new.store_ctrl 0) ∧ VtwxMasked (Vtwx.new.store_scroll 0) ∧
      VtwxMasked (Vtwx.new.store_addr 0) ∧ VtwxMasked Vtwx.new.reset_latch ∧
      VtwxMasked Vtwx.new.increment_h ∧ VtwxMasked Vtwx.new.increment_v ∧
      VtwxMasked Vtwx.new.copy_h ∧ VtwxMasked Vtwx.new.copy_v ∧
      (Vtwx.new.increment_addr 1).t = Vtwx.new.t ∧
      (Vtwx.new.increment_addr 1).v = (Vtwx.new.v + 1) % 65536 ∧
      (Vtwx.new.store_scroll 0).w = !Vtwx.new.w ∧
      (Vtwx.new.store_addr 0).w = !Vtwx.new.w ∧
      Vtwx.new.reset_latch.w = false) :=
  ⟨by decide, by decide, vtwx_ops_masked Vtwx.new 0 1 (by decide) (by decide)⟩

/-- C4 counterexample: the claim that v always stays masked to 15 bits fails
on the code.  From the reset state, two $2006 writes (0x3F then 0xFF) set
v to 0x3FFF, and 513 $2007 accesses with the increment at 32 (PPUCTRL bit 2
set) drive v to 0x801F, a 16-bit value: Vtwx::increment_addr never masks. -/
theorem vtwx_increment_addr_unmasked_cex :
    vtwxOverflowState.v = 0x801F ∧ ¬ VtwxMasked vtwxOverflowState := by decide

/-- With rendering disabled one PPU step acts as a successor on the
linearised raster index j = scanline * 341 + pixel, wrapping modulo
341 * 262 = 89342 and carrying into the frame counter. -/
theorem ppu_step_disabled_idx (c f j : Nat) (hj : j < 89342) :
    PpuPosition.step false { cycle := c, frame := f, pixel := j % 341, scanline := j / 341 } =
      { cycle := c + 1, frame := f + (j + 1) / 89342,
        pixel := (j + 1) % 89342 % 341, scanline := (j + 1) % 89342 / 341 } := by
  unfold PpuPosition.step
  by_cases hp : j % 341 = 340
  · by_cases hs : j / 341 = 261
    · have hj2 : j = 89341 := by omega
      subst hj2
      norm_num
    · rw [if_pos (by simp [hp]), if_neg (by simpa using hs)]
      simp only [PpuPosition.mk.injEq]
      repeat' constructor
      all_goals first | trivial | omega
  · rw [if_neg (by simp [hp])]
    simp only [PpuPosition.mk.injEq]
    repeat' constructor
    all_goals first | trivial | omega

/-- Iterating the rendering-disabled PPU step k times from a linearised
raster index advances the index by k, wrapping modulo 89342 into the frame
counter, and advances the cycle counter by exactly k. -/
theorem ppu_run_disabled (k : Nat) : ∀ c f j : Nat, j < 89342 →
    (PpuPosition.step false)^[k] { cycle := c, frame := f, pixel := j % 341, scanline := j / 341 } =
      { cycle := c + k, frame := f + (j + k) / 89342,
        pixel := (j + k) % 89342 % 341, scanline := (j + k) % 89342 / 341 } := by
  induction k with
  | zero =>
    intro c f j hj
    simp only [Function.iterate_zero, id_eq, PpuPosition.mk.injEq]
    repeat' constructor
    all_goals first | trivial | omega
  | succ k ih =>
    intro c f j hj
    rw [Function.iterate_succ_apply', ih c f j hj]
    have hlt : (j + k) % 89342 < 89342 := Nat.mod_lt _ (by norm_num)
    have hstep := ppu_step_disabled_idx (c + k) (f + (j + k) / 89342) ((j + k) % 89342) hlt
    rw [hstep]
    simp only [PpuPosition.mk.injEq]
    repeat' constructor
    all_goals first | trivial | omega

/-- The closed form of nesRunPpu: n orchestrator steps are 3n PPU cycles. -/
theorem nesRunPpu_closed (n : Nat) :
    nesRunPpu n =
      { cycle := 3 * n, frame := 3 * n / 89342,
        pixel := 3 * n % 89342 % 341, scanline := 3 * n % 89342 / 341 } := by
  have h0 : nesRunPpu n = (PpuPosition.step false)^[3 * n] PpuPosition.init := by
    unfold nesRunPpu nesStepPpu
    rw [Function.iterate_mul]
  have hinit : PpuPosition.init =
      { cycle := 0, frame := 0, pixel := 0 % 341, scanline := 0 / 341 } := rfl
  rw [h0, hinit, ppu_run_disabled (3 * n) 0 0 0 (by norm_num)]
  simp only [PpuPosition.mk.injEq]
  repeat' constructor
  all_goals first | trivial | omega

/-- C2 counterexample: stepping the Nes orchestrator exactly 3 * (341 * 262)
= 268026 times from power-on with rendering disabled advances the PPU frame
counter by 9, not by 1 - each orchestrator step is 3 PPU cycles, one frame
is 341 * 262 = 89342 PPU cycles, and 268026 * 3 / 89342 = 9. -/
theorem nes_frame_cadence_cex :
    (nesRunPpu (3 * (341 * 262))).frame = 9 ∧ (9 : Nat) ≠ 1 := by
  constructor
  · rw [nesRunPpu_closed]
  · decide

/-- C2 amended: with rendering disabled the orchestrator advances the PPU by
exactly 3 PPU cycles per step (the odd-frame skip never applies), the frame
counter after n orchestrator steps from power-on is 3n / 89342 - so the
claimed 3 * (341 * 262) steps advance it by exactly 9, one frame per
341 * 262 PPU cycles, not by 1.  The frame counter depends only on the PPU
position, not on the APU frame-sequencer mode. -/
theorem nes_frame_cadence_amended (n : Nat) :
    (nesRunPpu n).frame = 3 * n / 89342 ∧ (nesRunPpu n).cycle = 3 * n ∧
    (∀ s : PpuPosition, (nesStepPpu false s).cycle = s.cycle + 3) ∧
    (nesRunPpu (3 * (341 * 262))).frame = 9 := by
  have hstep : ∀ (re : Bool) (s : PpuPosition), (PpuPosition.step re s).cycle = s.cycle + 1 := by
    intro re s
    unfold PpuPosition.step
    split
    · split <;> rfl
    · rfl
  refine ⟨by rw [nesRunPpu_closed], by rw [nesRunPpu_closed], ?_, by rw [nesRunPpu_closed]⟩
  intro s
  show (PpuPosition.step false ((PpuPosition.step false)^[2] s)).cycle = s.cycle + 3
  rw [hstep]
  show ((PpuPosition.step false) ((PpuPosition.step false)^[1] s)).cycle + 1 = s.cycle + 3
  rw [hstep]
  show ((PpuPosition.step false) ((PpuPosition.step false)^[0] s)).cycle + 1 + 1 = s.cycle + 3
  rw [hstep]
  rfl

/-- The state component of FrameCounter::step4: the cycle wraps modulo 29830
and the IRQ flag latches at cycle 29829 unless inhibited; the result arms all
share this state. -/
theorem fc_step4_fst (s : FrameCounter) :
    (FrameCounter.step4 s).1 =
      { s with cycle := s.cycle % 29830,
               irq_flag :=
                 if s.cycle % 29830 = 29829 ∧ s.irq_inhibit = false then true
                 else s.irq_flag } := by
  simp only [FrameCounter.step4]
  split_ifs <;> rfl

/-- The result component of FrameCounter::step4. -/
theorem fc_step4_snd (s : FrameCounter) :
    (FrameCounter.step4 s).2 =
      { quarter_frame :=
          decide (s.cycle % 29830 = 7457) || decide (s.cycle % 29830 = 14913) ||
            decide (s.cycle % 29830 = 22371) || decide (s.cycle % 29830 = 29829),
        half_frame := decide (s.cycle % 29830 = 14913) || decide (s.cycle % 29830 = 29829),
        irq :=
          if s.cycle % 29830 = 29829 ∧ s.irq_inhibit = false then true
          else s.irq_flag } := by
  simp only [FrameCounter.step4]
  split_ifs with h1 h2 h3 h4 <;> simp_all

/-- With no pending sequencer reset and 4-step mode, FrameCounter::step is
step4 after the cycle increment. -/
theorem fc_step_no_reset (s : FrameCounter) (h0 : s.reset_countdown = 0) (hm : s.mode5 = false) :
    FrameCounter.step s = FrameCounter.step4 { s with cycle := s.cycle + 1 } := by
  simp [FrameCounter.step, h0, hm]

/-- Closed form of the FrameCounter state after k steps from a freshly
created counter (with the inhibit bit as configured): the cycle equals k and
the IRQ flag is latched only at step 29829 when not inhibited. -/
theorem fc_run_new (b : Bool) : ∀ k : Nat, k ≤ 29829 →
    FrameCounter.run k { FrameCounter.new with irq_inhibit := b } =
      { cycle := k, irq_flag := decide (k = 29829) && !b, irq_inhibit := b, mode5 := false,
        reset_countdown := 0 } := by
  intro k
  induction k with
  | zero =>
    intro _
    simp [FrameCounter.run, FrameCounter.new]
  | succ k ih =>
    intro hk
    have ihh := ih (by omega)
    have hk2 : ¬ (k = 29829) := by omega
    unfold FrameCounter.run at ihh ⊢
    rw [Function.iterate_succ_apply', ihh]
    have hflag : (decide (k = 29829) && !b) = false := by simp [hk2]
    rw [hflag, fc_step_no_reset _ rfl rfl, fc_step4_fst]
    have hmod : (k + 1) % 29830 = k + 1 := Nat.mod_eq_of_lt (by omega)
    cases b <;> by_cases hk3 : k + 1 = 29829 <;>
      simp [FrameCounter.mk.injEq, hmod, hk2, hk3]

/-- C7: from a newly created FrameCounter (4-step mode, inhibit bit as
configured), the k-th step (1 <= k <= 29829) pulses the quarter frame
exactly at steps 7457, 14913, 22371 and 29829, the half frame exactly at
steps 14913 and 29829, and asserts the IRQ exactly at step 29829 when the
IRQ-inhibit bit is clear. -/
theorem fc_four_step_schedule (b : Bool) (k : Nat) (h1 : 1 ≤ k) (h2 : k ≤ 29829) :
    ((FrameCounter.resultAt k { FrameCounter.new with irq_inhibit := b }).quarter_frame = true ↔
        (k = 7457 ∨ k = 14913 ∨ k = 22371 ∨ k = 29829)) ∧
    ((FrameCounter.resultAt k { FrameCounter.new with irq_inhibit := b }).half_frame = true ↔
        (k = 14913 ∨ k = 29829)) ∧
    ((FrameCounter.resultAt k { FrameCounter.new with irq_inhibit := b }).irq = true ↔
        (k = 29829 ∧ b = false)) := by
  have hrun := fc_run_new b (k - 1) (by omega)
  unfold FrameCounter.resultAt
  rw [hrun]
  have hne : ¬ (k - 1 = 29829) := by omega
  have hflag : (decide (k - 1 = 29829) && !b) = false := by simp [hne]
  rw [hflag, fc_step_no_reset _ rfl rfl, fc_step4_snd]
  have hk1 : k - 1 + 1 = k := by omega
  simp only [hk1]
  have hmod : k % 29830 = k := Nat.mod_eq_of_lt (by omega)
  simp only [hmod]
  refine ⟨by simp [or_assoc], by simp, ?_⟩
  by_cases hc : k = 29829 ∧ b = false <;> simp [hc]

/-- Witness for fc_four_step_schedule at step 29829 with the inhibit bit
clear. -/
theorem fc_four_step_schedule_witness :
    (1 ≤ 29829 ∧ (29829 : Nat) ≤ 29829) ∧
    (((FrameCounter.resultAt 29829
          { FrameCounter.new with irq_inhibit := false }).quarter_frame = true ↔
        ((29829 : Nat) = 7457 ∨ (29829 : Nat) = 14913 ∨ (29829 : Nat) = 22371 ∨
          (29829 : Nat) = 29829)) ∧
      ((FrameCounter.resultAt 29829
          { FrameCounter.new with irq_inhibit := false }).half_frame = true ↔
        ((29829 : Nat) = 14913 ∨ (29829 : Nat) = 29829)) ∧
      ((FrameCounter.resultAt 29829
          { FrameCounter.new with irq_inhibit := false }).irq = true ↔
        ((29829 : Nat) = 29829 ∧ false = false))) :=
  ⟨⟨by decide, by decide⟩, fc_four_step_schedule false 29829 (by decide) (by decide)⟩

end NesEmu
